import Mathlib

/-!
# Verification of the `create-workspace` Appwrite function

A shallow embedding, in Lean 4, of the workspace-provisioning handler of
`appwrite-go-sdk-tutorial` (`functions/create-workspace/main.go`,
`shared/middleware/auth.go`, `shared/services/webhook.go`,
`shared/models/*.go`) together with theorems settling the behavioural
claims about it.

External effects (the Appwrite admin API: `account.Get`,
`teams.Create`, `teams.Delete`, `databases.CreateDocument`; the system
clock; JSON unmarshalling of the caller-supplied body) are modelled by an
oracle structure `Ext` carrying the outcome of each call, and the handler
is a pure function from the request and the oracle to its response
together with the trace of outbound calls it performed (`List Event`).
`json.Marshal` of the response body is modelled by keeping the marshalled
record structured (`ResponseBody`); serialisation is injective on these
records, so nothing observable is lost.
-/

namespace AppwriteTut

/-- Go `map[string]string` lookup: a missing key yields the zero value `""`. -/
def mapGet (m : List (String × String)) (k : String) : String :=
  match m.find? (fun p => p.1 == k) with
  | some p => p.2
  | none => ""

/-- The slice of the Appwrite `models.User` consumed by
`middleware.AuthenticateUser` (auth.go:64-67): `Id`, `Email`, `Name`. -/
structure User where
  id : String
  email : String
  name : String
  deriving DecidableEq

/-- Embedding of `middleware.SessionInfo` (auth.go:21-26). -/
structure SessionInfo where
  userID : String
  sessionID : String
  email : String
  name : String
  deriving DecidableEq

/-- Embedding of `models.WorkspaceCreateRequest` (workspace.go). Absent JSON fields
unmarshal to the zero value `""`. -/
structure WorkspaceCreateRequest where
  name : String
  description : String
  plan : String
  deriving DecidableEq

/-- The slice of the Appwrite `models.Team` used by the handler: `Id`. -/
structure Team where
  id : String
  deriving DecidableEq

/-- The slice of the Appwrite `models.Document` used by the handler: `Id`. -/
structure Document where
  id : String
  deriving DecidableEq

/-- Embedding of `models.Workspace` (workspace.go). -/
structure Workspace where
  id : String
  name : String
  slug : String
  teamID : String
  ownerID : String
  createdAt : String
  status : String
  plan : String
  tenantID : String
  deriving DecidableEq

/-- Embedding of `models.APIError` (part of the shared models package). -/
structure APIError where
  code : String
  message : String
  field : String
  deriving DecidableEq

/-- Embedding of `models.ErrorResponse`. -/
structure ErrorResponse where
  success : Bool
  error : APIError
  deriving DecidableEq

/-- Embedding of `models.NewErrorResponse`. -/
def NewErrorResponse (code message field : String) : ErrorResponse :=
  { success := false, error := { code := code, message := message, field := field } }

/-- Embedding of `models.WorkspaceResponse` (success shape used by the handler). -/
structure WorkspaceResponse where
  success : Bool
  workspace : Workspace
  message : String
  deriving DecidableEq

/-- The information content of the marshalled `Body` string of
`AppwriteFunctionResponse`: either a marshalled `models.ErrorResponse` or
a marshalled `models.WorkspaceResponse`. -/
inductive ResponseBody where
  | error (e : ErrorResponse)
  | success (r : WorkspaceResponse)
  deriving DecidableEq

/-- Embedding of `AppwriteFunctionRequest` (main.go:21-25): headers, raw body, env. -/
structure AppwriteFunctionRequest where
  headers : List (String × String)
  body : String
  env : List (String × String)
  deriving DecidableEq

/-- Embedding of `AppwriteFunctionResponse` (main.go:28-31), with the marshalled body
kept structured. -/
structure AppwriteFunctionResponse where
  statusCode : Nat
  body : ResponseBody
  deriving DecidableEq

/-- The `map[string]interface{}` document payload assembled at
main.go:115-125, as a record (all values there are strings). -/
structure WorkspaceDoc where
  name : String
  slug : String
  teamId : String
  ownerId : String
  status : String
  plan : String
  tenantId : String
  createdAt : String
  description : String
  deriving DecidableEq

/-- Embedding of `services.WebhookPayload` (webhook.go:13-17); `Data` holds the three
string entries built at webhook.go:50-54. -/
structure WebhookPayload where
  event : String
  timestamp : String
  data : List (String × String)
  deriving DecidableEq

/-- An outbound HTTP request as built by `services.SendWelcomeWebhook`
(webhook.go:62-69): method, URL, headers, marshalled JSON body kept
structured. -/
structure HttpRequest where
  method : String
  url : String
  headers : List (String × String)
  body : WebhookPayload
  deriving DecidableEq

/-- Outbound calls the handler performs against the outside world, in
order. `httpPostCall` is the shape an actual outbound webhook POST would
have; the handler's own `sendWelcomeWebhook` (main.go:222-245) never
emits one — main.go:235-241 is a comment and the function only logs. -/
inductive Event where
  | teamsCreateCall (teamId : String) (name : String)
  | createDocumentCall (databaseId : String) (collectionId : String)
      (documentId : String) (data : WorkspaceDoc) (permissions : List String)
  | teamsDeleteCall (teamId : String)
  | webhookLogCall (url : String) (workspaceName : String) (teamId : String)
  | httpPostCall (request : HttpRequest)
  deriving DecidableEq

/-- Oracle for the external calls and the clock: the outcome each
blocking call would return during this invocation. -/
structure ExtOracle where
  /-- Outcome of `accountService.Get()` (auth.go:58). -/
  accountGet : Except String User
  /-- Outcome of `json.Unmarshal(req.Body, &createReq)` (auth.go:77). -/
  unmarshalBody : Except String WorkspaceCreateRequest
  /-- Outcome of `teamsService.Create("unique()", teamName)` (main.go:100). -/
  teamsCreate : Except String Team
  /-- Outcome of `databasesService.CreateDocument(...)` (main.go:133). -/
  createDocument : Except String Document
  /-- Outcome of `teamsService.Delete(team.Id)` (main.go:145); ignored by the code. -/
  teamsDelete : Except String Unit
  /-- Value of `time.Now().Format(time.RFC3339)` (main.go:123). -/
  now : String

/-! ## Middleware (shared/middleware/auth.go) -/

/-- Embedding of `middleware.VerifyTrigger` (auth.go:29-35). -/
def VerifyTrigger (headers : List (String × String)) : Except String Unit :=
  if mapGet headers "x-appwrite-trigger" = "" then
    Except.error "missing x-appwrite-trigger header"
  else
    Except.ok ()

/-- Embedding of `middleware.AuthenticateUser` (auth.go:38-69), with the
`accountService.Get()` outcome supplied by the oracle. -/
def AuthenticateUser (headers : List (String × String))
    (accountGet : Except String User) : Except String SessionInfo :=
  let sessionToken := mapGet headers "x-appwrite-session"
  if sessionToken = "" then
    Except.error "missing authentication token"
  else
    match accountGet with
    | Except.error e => Except.error ("authentication failed: " ++ e)
    | Except.ok user =>
        Except.ok { userID := user.id, sessionID := sessionToken,
                    email := user.email, name := user.name }

/-- Go `unicode.IsSpace` (the Unicode `White_Space` property), used by
`strings.TrimSpace`. -/
def goIsSpace (c : Char) : Bool :=
  c.toNat = 9 || c.toNat = 10 || c.toNat = 11 || c.toNat = 12 ||
  c.toNat = 13 || c.toNat = 32 || c.toNat = 0x85 || c.toNat = 0xA0 ||
  c.toNat = 0x1680 || (0x2000 ≤ c.toNat && c.toNat ≤ 0x200A) ||
  c.toNat = 0x2028 || c.toNat = 0x2029 || c.toNat = 0x202F ||
  c.toNat = 0x205F || c.toNat = 0x3000

/-- Go `strings.TrimSpace`: drop `White_Space` runes from both ends. -/
def trimSpace (s : String) : String :=
  String.mk (((s.data.dropWhile goIsSpace).reverse.dropWhile goIsSpace).reverse)

/-- Embedding of `middleware.ValidateInput` (auth.go:72-82), with the
`json.Unmarshal` outcome supplied by the oracle. -/
def ValidateInput (body : String)
    (unmarshal : Except String WorkspaceCreateRequest) :
    Except String WorkspaceCreateRequest :=
  if trimSpace body = "" then
    Except.error "request body is empty"
  else
    match unmarshal with
    | Except.error e => Except.error ("invalid JSON: " ++ e)
    | Except.ok v => Except.ok v

/-- Number of bytes of the UTF-8 encoding of a rune; Go `len(string)` is
the sum of these over the string's runes. -/
def runeLen (c : Char) : Nat :=
  if c.toNat ≤ 0x7F then 1
  else if c.toNat ≤ 0x7FF then 2
  else if c.toNat ≤ 0xFFFF then 3
  else 4

/-- Go `len` on a string: its UTF-8 byte length. -/
def goLen (s : String) : Nat :=
  (s.data.map runeLen).sum

/-- Byte-truncation `s[:n]` modelled at rune granularity: keep leading
runes that fit in `n` bytes.  (Go's byte slice can split the encoding of
the rune that straddles the boundary; no behaviour settled here depends
on inputs longer than 1000 bytes.) -/
def takeBytes : Nat → List Char → List Char
  | _, [] => []
  | n, c :: cs => if runeLen c ≤ n then c :: takeBytes (n - runeLen c) cs else []

/-- Embedding of `middleware.SanitizeString` (auth.go:85-96): remove NUL bytes
(`strings.ReplaceAll(input, "\x00", "")`), `strings.TrimSpace`, then cap
at 1000 bytes.  Note the code removes only NUL, no other control
characters, despite its own comment (auth.go:86). -/
def SanitizeString (input : String) : String :=
  let input := String.mk (input.data.filter (fun c => c != '\x00'))
  let input := trimSpace input
  if goLen input > 1000 then String.mk (takeBytes 1000 input.data) else input

/-! ## Name validation (main.go:80) -/

/-- RE2 `\s`, i.e. `[\t\n\f\r ]` (Go `regexp` Perl whitespace class). -/
def goRegexSpace (c : Char) : Bool :=
  c.toNat = 9 || c.toNat = 10 || c.toNat = 12 || c.toNat = 13 || c.toNat = 32

/-- One rune of the class `[a-zA-Z0-9\s\-_]` of the name regex at
main.go:80. -/
def nameClassChar (c : Char) : Bool :=
  (97 ≤ c.toNat && c.toNat ≤ 122) ||    -- a-z
  (65 ≤ c.toNat && c.toNat ≤ 90) ||     -- A-Z
  (48 ≤ c.toNat && c.toNat ≤ 57) ||     -- 0-9
  goRegexSpace c ||                     -- regex \s
  c.toNat = 45 || c.toNat = 95          -- hyphen, underscore

/-- Embedding of `regexp.MatchString` for the pattern at main.go:80: nonempty and every
rune in the class. -/
def nameRegexMatch (s : String) : Bool :=
  !s.data.isEmpty && s.data.all nameClassChar

/-! ## Slug derivation (main.go:195-200) -/

/-- Go `strings.ToLower` restricted to the mappings that matter for
`generateSlug`: ASCII `A-Z` map down by 32; the only two runes whose
Unicode simple lower-case mapping lands in ASCII are U+212A KELVIN SIGN
(to `k`) and U+0130 LATIN CAPITAL LETTER I WITH DOT ABOVE (to `i`).
Every other rune's mapping stays outside `[a-z0-9]` and is therefore
collapsed to a hyphen by the next step regardless, so it is modelled as
the identity. -/
def toLowerGo (c : Char) : Char :=
  if 65 ≤ c.toNat && c.toNat ≤ 90 then Char.ofNat (c.toNat + 32)
  else if c.toNat = 0x212A then 'k'
  else if c.toNat = 0x130 then 'i'
  else c

/-- One rune of the class `[a-z0-9]` (complement of the pattern
`[^a-z0-9]` at main.go:197). -/
def isLowerAlnum (c : Char) : Bool :=
  (97 ≤ c.toNat && c.toNat ≤ 122) || (48 ≤ c.toNat && c.toNat ≤ 57)

/-- Embedding of the replacement at main.go:197:
each maximal run of runes outside `[a-z0-9]` becomes a single hyphen.
The flag records whether we are inside such a run (already hyphenated). -/
def collapseAux : Bool → List Char → List Char
  | _, [] => []
  | inRun, c :: cs =>
    if isLowerAlnum c then c :: collapseAux false cs
    else if inRun then collapseAux true cs
    else '-' :: collapseAux true cs

/-- The replacement pass of main.go:197. -/
def collapseNonAlnum (l : List Char) : List Char :=
  collapseAux false l

/-- Embedding of `strings.Trim(slug, "-")` (main.go:198): drop hyphens from both ends. -/
def trimHyphens (l : List Char) : List Char :=
  ((l.dropWhile (fun c => c == '-')).reverse.dropWhile (fun c => c == '-')).reverse

/-- Embedding of `generateSlug` (main.go:195-200): lower-case, collapse runs of
non-`[a-z0-9]` runes to single hyphens, trim hyphens at both ends. -/
def generateSlug (name : String) : String :=
  String.mk (trimHyphens (collapseNonAlnum (name.data.map toLowerGo)))

/-- Modelled from the spec's words for comparison with `generateSlug`
(claim about slug derivation): "lower-case the name, collapse any run of
non-alphanumeric characters to a single hyphen, trim leading/trailing
hyphens", written as a single right fold that merges each non-alphanumeric
character with an adjacent hyphen already produced on its right. -/
def slugSpecCollapse : List Char → List Char
  | [] => []
  | c :: cs =>
    let rest := slugSpecCollapse cs
    if isLowerAlnum c then c :: rest
    else if rest.head? = some '-' then rest else '-' :: rest

/-- The spec-side slug function compared against `generateSlug`. -/
def slugSpec (name : String) : String :=
  String.mk (trimHyphens (slugSpecCollapse (name.data.map toLowerGo)))

/-! ## Webhook step -/

/-- Embedding of `sendWelcomeWebhook` (main.go:222-245).  It validates the webhook
configuration from the invocation env and then only logs the delivery it
would perform (main.go:235-241 is a comment; main.go:242 is a
`log.Printf`); no HTTP request is issued.  Returns the events emitted
paired with the Go error value. -/
def sendWelcomeWebhook (env : List (String × String))
    (workspaceName userEmail teamID : String) :
    List Event × Except String Unit :=
  let webhookURL := mapGet env "WEBHOOK_URL"
  if webhookURL = "" then
    ([], Except.error "webhook URL not configured")
  else
    let apiKey := mapGet env "WEBHOOK_API_KEY"
    if apiKey = "" then
      ([], Except.error "webhook API key not configured")
    else
      ([Event.webhookLogCall webhookURL workspaceName teamID], Except.ok ())

/-- Embedding of `initializeWorkspaceCollection` (main.go:203-219): a placeholder that
performs no external call and returns `("", nil)`. -/
def initializeWorkspaceCollection (databaseID workspaceName teamID : String) :
    Except String String :=
  Except.ok ""

namespace services

/-- Embedding of the method `SendWelcomeWebhook` of `services.WebhookService` (webhook.go:35-82),
up to the point of transport: the HTTP request it builds and would send
with its 10-second-timeout client, or the configuration error.  `env`
models the `os.Getenv` environment and `now` the `time.Now()` timestamp.
This method exists in the shared services package but is never invoked by
the create-workspace handler. -/
def SendWelcomeWebhook (env : List (String × String))
    (workspaceName userEmail teamID now : String) :
    Except String HttpRequest :=
  let webhookURL := mapGet env "WEBHOOK_URL"
  let apiKey := mapGet env "WEBHOOK_API_KEY"
  if webhookURL = "" || apiKey = "" then
    Except.error "webhook configuration missing"
  else
    Except.ok
      { method := "POST"
        url := webhookURL
        headers := [("Content-Type", "application/json"),
                    ("Authorization", "Bearer " ++ apiKey),
                    ("X-Webhook-Source", "appwrite-function")]
        body := { event := "workspace.created"
                  timestamp := now
                  data := [("workspaceName", workspaceName),
                           ("userEmail", userEmail),
                           ("teamId", teamID)] } }

end services

/-! ## The handler (main.go:50-192) -/

/-- Embedding of `respondError` (main.go:248-256). -/
def respondError (statusCode : Nat) (code message field : String) :
    AppwriteFunctionResponse :=
  { statusCode := statusCode, body := ResponseBody.error (NewErrorResponse code message field) }

/-- Steps 7-11 of `handleRequest` (main.go:97-191): team creation, the
document write with rollback, the collection stub, the webhook step and
response assembly.  `workspaceName` is the sanitized, validated name. -/
def handleCreate (req : AppwriteFunctionRequest) (ext : ExtOracle)
    (sessionInfo : SessionInfo) (createReq : WorkspaceCreateRequest)
    (workspaceName : String) : AppwriteFunctionResponse × List Event :=
  -- Step 5 (main.go:86-89): plan defaulting
  let plan := if createReq.plan = "" then "free" else createReq.plan
  -- Step 7 (main.go:98-104): create the team
  let teamName := workspaceName ++ " Workspace"
  match ext.teamsCreate with
  | Except.error _ =>
    (respondError 500 "TEAM_CREATION_FAILED" "Failed to create workspace team" "",
     [Event.teamsCreateCall "unique()" teamName])
  | Except.ok team =>
    -- Step 8 (main.go:107-141): the env lookups use the literal keys
    -- written in the source, not the documented APPWRITE_DATABASE_ID /
    -- APPWRITE_WORKSPACES_COLLECTION_ID configuration keys
    let databaseID := mapGet req.env "6952f51d00043d5bb1d9"
    let collectionID := mapGet req.env "workspaces"
    let slug := generateSlug workspaceName
    let workspaceDoc : WorkspaceDoc :=
      { name := workspaceName
        slug := slug
        teamId := team.id
        ownerId := sessionInfo.userID
        status := "active"
        plan := plan
        tenantId := team.id
        createdAt := ext.now
        description := createReq.description }
    let permissions := ["read(\"team:" ++ team.id ++ "\")",
                        "write(\"team:" ++ team.id ++ "[owner]\")"]
    let created := [Event.teamsCreateCall "unique()" teamName,
                    Event.createDocumentCall databaseID collectionID "unique()"
                      workspaceDoc permissions]
    match ext.createDocument with
    | Except.error _ =>
      -- main.go:142-147: compensating delete of the just-created team
      (respondError 500 "WORKSPACE_CREATION_FAILED" "Failed to create workspace document" "",
       created ++ [Event.teamsDeleteCall team.id])
    | Except.ok doc =>
      -- Step 9 (main.go:151-160): stub, outcome discarded
      let _ := initializeWorkspaceCollection databaseID workspaceName team.id
      -- Step 10 (main.go:163-166): webhook, error only logged
      let webhookEvents := (sendWelcomeWebhook req.env workspaceName sessionInfo.email team.id).1
      -- Step 11 (main.go:169-191): success response
      let workspace : Workspace :=
        { id := doc.id
          name := workspaceName
          slug := slug
          teamID := team.id
          ownerID := sessionInfo.userID
          createdAt := ext.now
          status := "active"
          plan := plan
          tenantID := team.id }
      let response : WorkspaceResponse :=
        { success := true
          workspace := workspace
          message := "Workspace created successfully" }
      ({ statusCode := 200, body := ResponseBody.success response },
       created ++ webhookEvents)

/-- Step 4 and the name validations of `handleRequest` (main.go:68-83),
continuing into `handleCreate` when every gate passes. -/
def handleValidated (req : AppwriteFunctionRequest) (ext : ExtOracle)
    (sessionInfo : SessionInfo) (createReq : WorkspaceCreateRequest) :
    AppwriteFunctionResponse × List Event :=
  let workspaceName := SanitizeString createReq.name
  if workspaceName = "" then
    (respondError 400 "VALIDATION_ERROR" "Workspace name is required" "name", [])
  else if goLen workspaceName < 3 ∨ 50 < goLen workspaceName then
    (respondError 400 "VALIDATION_ERROR" "Workspace name must be between 3 and 50 characters" "name", [])
  else if nameRegexMatch workspaceName = false then
    (respondError 400 "VALIDATION_ERROR" "Workspace name contains invalid characters" "name", [])
  else
    handleCreate req ext sessionInfo createReq workspaceName

/-- Embedding of `handleRequest` (main.go:50-192): the three request gates
(trigger, authentication, input parsing), then the validated flow. -/
def handleRequest (req : AppwriteFunctionRequest) (ext : ExtOracle) :
    AppwriteFunctionResponse × List Event :=
  match VerifyTrigger req.headers with
  | Except.error e => (respondError 401 "UNAUTHORIZED" e "", [])
  | Except.ok _ =>
    match AuthenticateUser req.headers ext.accountGet with
    | Except.error e => (respondError 401 "AUTHENTICATION_FAILED" e "", [])
    | Except.ok sessionInfo =>
      match ValidateInput req.body ext.unmarshalBody with
      | Except.error e => (respondError 400 "INVALID_INPUT" e "", [])
      | Except.ok createReq => handleValidated req ext sessionInfo createReq

/-- Embedding of `main` (main.go:33-48).  Here `decoded` is the outcome of
`json.NewDecoder(os.Stdin).Decode(&req)`; the result is the response
printed to standard output, `none` when nothing is printed.  On decode
failure the code calls `respondError` but discards its return value and
returns without printing. -/
def goMain (decoded : Option AppwriteFunctionRequest) (ext : ExtOracle) :
    Option AppwriteFunctionResponse :=
  match decoded with
  | none =>
    let _ := respondError 500 "INVALID_REQUEST" "Failed to parse request" ""
    none
  | some req => some (handleRequest req ext).1

/-! ## Trace observers -/

/-- Whether an event is the team-creation call (main.go:100). -/
def isTeamsCreate : Event → Bool
  | Event.teamsCreateCall _ _ => true
  | _ => false

/-- Whether an event is the team-deletion call (main.go:145). -/
def isTeamsDelete : Event → Bool
  | Event.teamsDeleteCall _ => true
  | _ => false

/-- Whether an event is an external creation call (team creation or
document creation). -/
def isCreationCall : Event → Bool
  | Event.teamsCreateCall _ _ => true
  | Event.createDocumentCall _ _ _ _ _ => true
  | _ => false

/-- Whether an event is an outbound HTTP POST. -/
def isHttpPost : Event → Bool
  | Event.httpPostCall _ => true
  | _ => false

/-- The (database id, collection id) pairs of the document-creation calls
in a trace. -/
def docCreateIds (evs : List Event) : List (String × String) :=
  evs.filterMap fun e =>
    match e with
    | Event.createDocumentCall db coll _ _ _ => some (db, coll)
    | _ => none

/-! ## Helper lemmas -/

/-- When `ValidateInput` succeeds, the parsed value is the unmarshal
outcome. -/
lemma ValidateInput_ok (body : String)
    (o : Except String WorkspaceCreateRequest) (cr : WorkspaceCreateRequest)
    (h : ValidateInput body o = Except.ok cr) : o = Except.ok cr := by
  unfold ValidateInput at h
  by_cases hb : trimSpace body = ""
  · simp [hb] at h
  · simp only [hb, if_neg, if_false] at h
    cases o with
    | error e => simp at h
    | ok v => simpa using h

/-- The name-validation layer either rejects with a 400 response and an
empty trace, or hands over to `handleCreate`. -/
lemma handleValidated_cases (req : AppwriteFunctionRequest) (ext : ExtOracle)
    (si : SessionInfo) (cr : WorkspaceCreateRequest) :
    ((handleValidated req ext si cr).2 = [] ∧
     (handleValidated req ext si cr).1.statusCode = 400) ∨
    handleValidated req ext si cr =
      handleCreate req ext si cr (SanitizeString cr.name) := by
  unfold handleValidated
  by_cases h1 : SanitizeString cr.name = ""
  · simp [h1, respondError]
  · by_cases h2 : goLen (SanitizeString cr.name) < 3 ∨ 50 < goLen (SanitizeString cr.name)
    · simp [h1, h2, respondError]
    · by_cases h3 : nameRegexMatch (SanitizeString cr.name) = false
      · simp [h1, h2, h3, respondError]
      · simp [h1, h2, h3]

/-- The handler either rejects at one of the gates with an empty trace
and a non-200 status, or runs `handleCreate` on the parsed request. -/
lemma handleRequest_cases (req : AppwriteFunctionRequest) (ext : ExtOracle) :
    ((handleRequest req ext).2 = [] ∧ (handleRequest req ext).1.statusCode ≠ 200) ∨
    ∃ si cr, ext.unmarshalBody = Except.ok cr ∧
      handleRequest req ext = handleCreate req ext si cr (SanitizeString cr.name) := by
  unfold handleRequest
  cases hv : VerifyTrigger req.headers with
  | error e => exact Or.inl ⟨rfl, by simp [respondError]⟩
  | ok u =>
    cases ha : AuthenticateUser req.headers ext.accountGet with
    | error e => exact Or.inl ⟨rfl, by simp [respondError]⟩
    | ok si =>
      cases hp : ValidateInput req.body ext.unmarshalBody with
      | error e => exact Or.inl ⟨rfl, by simp [respondError]⟩
      | ok cr =>
        have hu : ext.unmarshalBody = Except.ok cr := ValidateInput_ok _ _ _ hp
        rcases handleValidated_cases req ext si cr with ⟨ht, hs⟩ | heq
        · exact Or.inl ⟨ht, by rw [hs]; omega⟩
        · exact Or.inr ⟨si, cr, hu, heq⟩

/-- The response component of the handler does not depend on the
invocation env: the env feeds only the identifiers of outbound calls and
the webhook step, whose outcome is discarded. -/
lemma response_env_independent (req : AppwriteFunctionRequest) (ext : ExtOracle)
    (env2 : List (String × String)) :
    (handleRequest { req with env := env2 } ext).1 = (handleRequest req ext).1 := by
  unfold handleRequest
  cases hv : VerifyTrigger req.headers with
  | error e => rfl
  | ok u =>
    cases ha : AuthenticateUser req.headers ext.accountGet with
    | error e => rfl
    | ok si =>
      cases hp : ValidateInput req.body ext.unmarshalBody with
      | error e => rfl
      | ok cr =>
        unfold handleValidated
        by_cases h1 : SanitizeString cr.name = ""
        · simp [h1]
        · by_cases h2 : goLen (SanitizeString cr.name) < 3 ∨ 50 < goLen (SanitizeString cr.name)
          · simp [h1, h2]
          · by_cases h3 : nameRegexMatch (SanitizeString cr.name) = false
            · simp [h1, h2, h3]
            · simp only [h1, h2, h3, if_false, if_neg, ite_false]
              unfold handleCreate
              cases ext.teamsCreate with
              | error e => rfl
              | ok team =>
                cases ext.createDocument with
                | error e => rfl
                | ok doc => rfl

/-- Every rune occupies at least one byte. -/
lemma one_le_runeLen (c : Char) : 1 ≤ runeLen c := by
  unfold runeLen
  split
  · exact Nat.le_refl 1
  · split
    · omega
    · split <;> omega

/-- Rune count never exceeds byte count. -/
lemma length_le_goLen (s : String) : s.data.length ≤ goLen s := by
  unfold goLen
  induction s.data with
  | nil => simp
  | cons c cs ih =>
    simp only [List.map_cons, List.sum_cons, List.length_cons]
    have := one_le_runeLen c
    omega

/-- Every rune of the name class of main.go:80 is ASCII, hence one byte. -/
lemma nameClassChar_runeLen (c : Char) (h : nameClassChar c = true) :
    runeLen c = 1 := by
  have hb : c.toNat ≤ 0x7F := by
    simp only [nameClassChar, goRegexSpace, Bool.or_eq_true, Bool.and_eq_true,
      decide_eq_true_eq] at h
    omega
  simp [runeLen, hb]

/-- A list of runes of the name class encodes to one byte per rune. -/
lemma sum_runeLen_of_class (l : List Char)
    (h : ∀ c ∈ l, nameClassChar c = true) :
    (l.map runeLen).sum = l.length := by
  induction l with
  | nil => simp
  | cons c cs ih =>
    simp only [List.map_cons, List.sum_cons, List.length_cons]
    have hc := nameClassChar_runeLen c (h c (by simp))
    have hcs := ih (fun x hx => h x (List.mem_cons_of_mem _ hx))
    omega

/-- On a string matched by the name regex, Go byte length and rune count
agree. -/
lemma goLen_eq_length_of_match (s : String) (h : nameRegexMatch s = true) :
    goLen s = s.data.length := by
  unfold nameRegexMatch at h
  simp only [Bool.and_eq_true, List.all_eq_true] at h
  exact sum_runeLen_of_class s.data h.2

/-- Drop one leading hyphen if present. -/
def dropLeadHyphen (l : List Char) : List Char :=
  match l with
  | [] => []
  | c :: t => if c = '-' then t else c :: t

/-- A rune of the class `[a-z0-9]` is not a hyphen. -/
lemma isLowerAlnum_ne_hyphen (c : Char) (h : isLowerAlnum c = true) :
    ¬ (c = '-') := by
  intro hc
  subst hc
  simp [isLowerAlnum] at h

/-- The run-collapsing pass of `generateSlug` coincides with the
spec-side fold: in the initial state they agree outright, and inside a
run the left-over output is the fold's output without its leading
hyphen. -/
lemma collapseAux_eq_spec (l : List Char) :
    collapseAux false l = slugSpecCollapse l ∧
    collapseAux true l = dropLeadHyphen (slugSpecCollapse l) := by
  induction l with
  | nil => exact ⟨rfl, rfl⟩
  | cons c cs ih =>
    obtain ⟨ih1, ih2⟩ := ih
    by_cases hc : isLowerAlnum c = true
    · have hne : ¬ (c = '-') := isLowerAlnum_ne_hyphen c hc
      constructor
      · simp [collapseAux, slugSpecCollapse, hc, ih1]
      · simp [collapseAux, slugSpecCollapse, dropLeadHyphen, hc, hne, ih1]
    · have hmerge : slugSpecCollapse (c :: cs) =
          '-' :: dropLeadHyphen (slugSpecCollapse cs) := by
        simp only [slugSpecCollapse, hc, if_false]
        cases hrest : slugSpecCollapse cs with
        | nil => simp [dropLeadHyphen]
        | cons d t =>
          by_cases hd : d = '-'
          · subst hd; simp [dropLeadHyphen]
          · simp [dropLeadHyphen, hd, Ne.symm hd]
      constructor
      · simp [collapseAux, hc, ih2, hmerge]
      · simp [collapseAux, hc, ih2, hmerge, dropLeadHyphen]

/-- Modelled from the spec: the character class `[A-Za-z0-9 _-]` that the
spec names for workspace names (letters, digits, the space character,
underscore, hyphen).  Used to compare the spec's class with the code's
regex class, which additionally admits the `\s` runes tab, newline, form
feed and carriage return. -/
def specNameClass (c : Char) : Bool :=
  (65 ≤ c.toNat && c.toNat ≤ 90) ||     -- A-Z
  (97 ≤ c.toNat && c.toNat ≤ 122) ||    -- a-z
  (48 ≤ c.toNat && c.toNat ≤ 57) ||     -- 0-9
  c.toNat = 32 || c.toNat = 95 || c.toNat = 45

/-! ## Claim C1 -/

/-- C1: whenever the team-creation call succeeded (the run performed it,
and the oracle returned a team) and the document-creation call failed,
the handler's response is the 500 `WORKSPACE_CREATION_FAILED` error and
the trace's delete calls are exactly one delete of that team's id; the
document write failed, so no persisted document references the team. -/
theorem C1_team_rollback_on_doc_failure
    (req : AppwriteFunctionRequest) (ext : ExtOracle) (team : Team) (e : String)
    (hteam : ext.teamsCreate = Except.ok team)
    (hdoc : ext.createDocument = Except.error e)
    (hrun : ∃ ev ∈ (handleRequest req ext).2, isTeamsCreate ev = true) :
    (handleRequest req ext).1 =
      respondError 500 "WORKSPACE_CREATION_FAILED" "Failed to create workspace document" "" ∧
    (handleRequest req ext).2.filter isTeamsDelete = [Event.teamsDeleteCall team.id] := by
  rcases handleRequest_cases req ext with ⟨htr, _⟩ | ⟨si, cr, hu, heq⟩
  · rw [htr] at hrun
    simp at hrun
  · rw [heq]
    unfold handleCreate
    rw [hteam, hdoc]
    exact ⟨rfl, by simp [isTeamsDelete, List.filter]⟩

/-- Request used by the witness of C1. -/
def c1req : AppwriteFunctionRequest :=
  { headers := [("x-appwrite-trigger", "http"), ("x-appwrite-session", "sess1")]
    body := "\x7b\x7d"
    env := [("APPWRITE_ENDPOINT", "https://cloud.appwrite.io/v1"),
            ("APPWRITE_PROJECT_ID", "proj"), ("APPWRITE_API_KEY", "key")] }

/-- Oracle used by the witness of C1: the team is created, the document
write fails. -/
def c1ext : ExtOracle :=
  { accountGet := Except.ok { id := "user1", email := "u@example.com", name := "User One" }
    unmarshalBody := Except.ok { name := "Acme Corp", description := "d", plan := "" }
    teamsCreate := Except.ok { id := "team1" }
    createDocument := Except.error "document write refused"
    teamsDelete := Except.ok ()
    now := "2026-01-01T00:00:00Z" }

/-- Witness for C1 at a concrete run. -/
theorem C1_team_rollback_on_doc_failure_witness :
    (handleRequest c1req c1ext).1 =
      respondError 500 "WORKSPACE_CREATION_FAILED" "Failed to create workspace document" "" ∧
    (handleRequest c1req c1ext).2.filter isTeamsDelete =
      [Event.teamsDeleteCall (Team.mk "team1").id] :=
  C1_team_rollback_on_doc_failure c1req c1ext (Team.mk "team1") "document write refused"
    rfl rfl (by decide)

/-! ## Claim C2 -/

/-- Env configured exactly as the repository's deployment guide and
README instruct (`APPWRITE_DATABASE_ID`, `APPWRITE_WORKSPACES_COLLECTION_ID`,
alongside endpoint, project id, admin key and the webhook settings). -/
def c2req : AppwriteFunctionRequest :=
  { headers := [("x-appwrite-trigger", "http"), ("x-appwrite-session", "sess1")]
    body := "\x7b\x7d"
    env := [("APPWRITE_ENDPOINT", "https://cloud.appwrite.io/v1"),
            ("APPWRITE_PROJECT_ID", "proj"), ("APPWRITE_API_KEY", "key"),
            ("APPWRITE_DATABASE_ID", "maindb"),
            ("APPWRITE_WORKSPACES_COLLECTION_ID", "wscoll")] }

/-- Oracle for the C2 run: everything succeeds. -/
def c2ext : ExtOracle :=
  { accountGet := Except.ok { id := "user1", email := "u@example.com", name := "User One" }
    unmarshalBody := Except.ok { name := "Acme Corp", description := "d", plan := "" }
    teamsCreate := Except.ok { id := "team1" }
    createDocument := Except.ok { id := "doc1" }
    teamsDelete := Except.ok ()
    now := "2026-01-01T00:00:00Z" }

/-- C2 fails on the code: with the env populated under the documented
database-identifier and collection-identifier keys, the metadata-persistence
call is issued with empty identifiers, because main.go:108-109 looks up the
literal keys `"6952f51d00043d5bb1d9"` and `"workspaces"` instead of the
configured keys. -/
theorem C2_document_ids_read_from_wrong_keys :
    mapGet c2req.env "APPWRITE_DATABASE_ID" = "maindb" ∧
    mapGet c2req.env "APPWRITE_WORKSPACES_COLLECTION_ID" = "wscoll" ∧
    (handleRequest c2req c2ext).1.statusCode = 200 ∧
    docCreateIds (handleRequest c2req c2ext).2 = [("", "")] := by decide

/-! ## Claim C3 -/

/-- Concrete request whose sanitized name `"ab\tcd"` contains a tab,
which is outside the spec's class `[A-Za-z0-9 _-]`. -/
def c3req : AppwriteFunctionRequest :=
  { headers := [("x-appwrite-trigger", "http"), ("x-appwrite-session", "sess1")]
    body := "\x7b\x7d"
    env := [("APPWRITE_ENDPOINT", "https://cloud.appwrite.io/v1"),
            ("APPWRITE_PROJECT_ID", "proj"), ("APPWRITE_API_KEY", "key")] }

/-- Oracle for the C3 counterexample run: name `"ab\tcd"`, all calls
succeed. -/
def c3ext : ExtOracle :=
  { accountGet := Except.ok { id := "user1", email := "u@example.com", name := "User One" }
    unmarshalBody := Except.ok { name := "ab\tcd", description := "", plan := "" }
    teamsCreate := Except.ok { id := "team1" }
    createDocument := Except.ok { id := "doc1" }
    teamsDelete := Except.ok ()
    now := "2026-01-01T00:00:00Z" }

/-- C3 as stated is false on the code: the sanitized name `"ab\tcd"`
contains a tab, which is outside `[A-Za-z0-9 _-]`, yet the handler does
not return `VALIDATION_ERROR` — the regex at main.go:80 uses `\s`, which
admits the tab — and it performs the creation calls, returning 200. -/
theorem C3_tab_passes_validation :
    (SanitizeString "ab\tcd" = "ab\tcd" ∧
     '\t' ∈ (SanitizeString "ab\tcd").data ∧ specNameClass '\t' = false) ∧
    (handleRequest c3req c3ext).1.statusCode = 200 ∧
    (handleRequest c3req c3ext).2.filter isCreationCall ≠ [] := by decide

/-- C3 amended: the class the code enforces is the regex class
`[a-zA-Z0-9\s\-_]` (RE2 `\s` being tab, newline, form feed, carriage
return and space).  For every request that passes the trigger,
authentication and parsing gates and whose sanitized name contains a
character outside that class, the handler returns a `VALIDATION_ERROR`
response on field "name" and performs no external creation call. -/
theorem C3_invalid_character_rejected
    (req : AppwriteFunctionRequest) (ext : ExtOracle) (si : SessionInfo)
    (createReq : WorkspaceCreateRequest) (c : Char)
    (hv : VerifyTrigger req.headers = Except.ok ())
    (ha : AuthenticateUser req.headers ext.accountGet = Except.ok si)
    (hp : ValidateInput req.body ext.unmarshalBody = Except.ok createReq)
    (hc : c ∈ (SanitizeString createReq.name).data)
    (hbad : nameClassChar c = false) :
    (∃ m, (handleRequest req ext).1 = respondError 400 "VALIDATION_ERROR" m "name") ∧
    (handleRequest req ext).2.filter isCreationCall = [] := by
  have hreq : handleRequest req ext = handleValidated req ext si createReq := by
    unfold handleRequest
    rw [hv, ha, hp]
  rw [hreq]
  unfold handleValidated
  by_cases h1 : SanitizeString createReq.name = ""
  · simp only [h1, if_true, ite_true]
    exact ⟨⟨"Workspace name is required", rfl⟩, rfl⟩
  · by_cases h2 : goLen (SanitizeString createReq.name) < 3 ∨
        50 < goLen (SanitizeString createReq.name)
    · simp only [h1, h2, if_true, if_false, ite_true, ite_false]
      exact ⟨⟨"Workspace name must be between 3 and 50 characters", rfl⟩, rfl⟩
    · have h3 : nameRegexMatch (SanitizeString createReq.name) = false := by
        cases hm : nameRegexMatch (SanitizeString createReq.name) with
        | false => rfl
        | true =>
          exfalso
          unfold nameRegexMatch at hm
          simp only [Bool.and_eq_true, List.all_eq_true] at hm
          have := hm.2 c hc
          rw [hbad] at this
          exact Bool.false_ne_true this
      simp only [h1, h2, h3, if_true, if_false, ite_true, ite_false]
      exact ⟨⟨"Workspace name contains invalid characters", rfl⟩, rfl⟩

/-- Oracle for the C3 witness run: name `"ab!cd"`. -/
def c3wext : ExtOracle :=
  { accountGet := Except.ok { id := "user1", email := "u@example.com", name := "User One" }
    unmarshalBody := Except.ok { name := "ab!cd", description := "", plan := "" }
    teamsCreate := Except.ok { id := "team1" }
    createDocument := Except.ok { id := "doc1" }
    teamsDelete := Except.ok ()
    now := "2026-01-01T00:00:00Z" }

/-- Witness for the amended C3 at a concrete run: `"ab!cd"` is rejected. -/
theorem C3_invalid_character_rejected_witness :
    (∃ m, (handleRequest c3req c3wext).1 = respondError 400 "VALIDATION_ERROR" m "name") ∧
    (handleRequest c3req c3wext).2.filter isCreationCall = [] :=
  C3_invalid_character_rejected c3req c3wext
    { userID := "user1", sessionID := "sess1", email := "u@example.com", name := "User One" }
    { name := "ab!cd", description := "", plan := "" } '!'
    rfl rfl rfl (by decide) (by decide)

/-! ## Claim C4 -/

/-- C4 fails on the code: `SanitizeString` removes only NUL bytes
(auth.go:87), so the control character U+0001 survives sanitization
unchanged, contradicting the claim (and the code's own comment at
auth.go:86) that control characters are stripped. -/
theorem C4_control_character_survives :
    SanitizeString "a\x01b" = "a\x01b" ∧
    '\x01' ∈ (SanitizeString "a\x01b").data ∧
    ('\x01').toNat < 32 ∧ ('\x01').toNat ≠ 0 := by decide

/-! ## Claim C5 -/

/-- C5: for every request that passes the trigger, authentication and
parsing gates and whose sanitized name has fewer than 3 or more than 50
characters, the handler returns a `VALIDATION_ERROR` response on field
"name" and performs no external creation call.  (The code compares Go
byte length; a name short in characters but long enough in bytes is
all non-ASCII and is rejected by the character-class gate instead, on
the same field.) -/
theorem C5_bad_length_rejected
    (req : AppwriteFunctionRequest) (ext : ExtOracle) (si : SessionInfo)
    (createReq : WorkspaceCreateRequest)
    (hv : VerifyTrigger req.headers = Except.ok ())
    (ha : AuthenticateUser req.headers ext.accountGet = Except.ok si)
    (hp : ValidateInput req.body ext.unmarshalBody = Except.ok createReq)
    (hlen : (SanitizeString createReq.name).data.length < 3 ∨
            50 < (SanitizeString createReq.name).data.length) :
    (∃ m, (handleRequest req ext).1 = respondError 400 "VALIDATION_ERROR" m "name") ∧
    (handleRequest req ext).2.filter isCreationCall = [] := by
  have hreq : handleRequest req ext = handleValidated req ext si createReq := by
    unfold handleRequest
    rw [hv, ha, hp]
  rw [hreq]
  unfold handleValidated
  by_cases h1 : SanitizeString createReq.name = ""
  · simp only [h1, if_true, ite_true]
    exact ⟨⟨"Workspace name is required", rfl⟩, rfl⟩
  · by_cases h2 : goLen (SanitizeString createReq.name) < 3 ∨
        50 < goLen (SanitizeString createReq.name)
    · simp only [h1, h2, if_true, if_false, ite_true, ite_false]
      exact ⟨⟨"Workspace name must be between 3 and 50 characters", rfl⟩, rfl⟩
    · by_cases h3 : nameRegexMatch (SanitizeString createReq.name) = false
      · simp only [h1, h2, h3, if_true, if_false, ite_true, ite_false]
        exact ⟨⟨"Workspace name contains invalid characters", rfl⟩, rfl⟩
      · exfalso
        have hm : nameRegexMatch (SanitizeString createReq.name) = true := by
          cases hmm : nameRegexMatch (SanitizeString createReq.name) with
          | false => exact absurd hmm h3
          | true => rfl
        have heq2 := goLen_eq_length_of_match _ hm
        omega

/-- Oracle for the C5 witness run: name `"ab"`, two characters. -/
def c5ext : ExtOracle :=
  { accountGet := Except.ok { id := "user1", email := "u@example.com", name := "User One" }
    unmarshalBody := Except.ok { name := "ab", description := "", plan := "" }
    teamsCreate := Except.ok { id := "team1" }
    createDocument := Except.ok { id := "doc1" }
    teamsDelete := Except.ok ()
    now := "2026-01-01T00:00:00Z" }

/-- Request for the C5 witness run. -/
def c5req : AppwriteFunctionRequest :=
  { headers := [("x-appwrite-trigger", "http"), ("x-appwrite-session", "sess1")]
    body := "\x7b\x7d"
    env := [] }

/-- Witness for C5 at a concrete run: the two-character name `"ab"` is
rejected with no creation call. -/
theorem C5_bad_length_rejected_witness :
    (∃ m, (handleRequest c5req c5ext).1 = respondError 400 "VALIDATION_ERROR" m "name") ∧
    (handleRequest c5req c5ext).2.filter isCreationCall = [] :=
  C5_bad_length_rejected c5req c5ext
    { userID := "user1", sessionID := "sess1", email := "u@example.com", name := "User One" }
    { name := "ab", description := "", plan := "" }
    rfl rfl rfl (by decide)

/-! ## Claim C6 -/

/-- C6: slug derivation is the pure function that lower-cases the name,
collapses every run of non-alphanumeric characters to a single hyphen
and trims leading and trailing hyphens — `generateSlug` coincides with
the spec-side formulation `slugSpec` on every input — and it maps
`"My  Workspace!!"` to `"my-workspace"` and `"  --Foo--  "` to `"foo"`. -/
theorem C6_slug_derivation :
    (∀ name : String, generateSlug name = slugSpec name) ∧
    generateSlug "My  Workspace!!" = "my-workspace" ∧
    generateSlug "  --Foo--  " = "foo" := by
  refine ⟨fun name => ?_, by decide, by decide⟩
  unfold generateSlug slugSpec collapseNonAlnum
  rw [(collapseAux_eq_spec (name.data.map toLowerGo)).1]

/-! ## Claim C7 -/

/-- C7: whenever the parsed request's plan is the empty string and the
provisioning succeeds (status 200), the returned workspace has plan
"free", status "active" and a tenant id equal to its team id. -/
theorem C7_empty_plan_defaults_free
    (req : AppwriteFunctionRequest) (ext : ExtOracle)
    (createReq : WorkspaceCreateRequest)
    (hp : ext.unmarshalBody = Except.ok createReq)
    (hplan : createReq.plan = "")
    (hsucc : (handleRequest req ext).1.statusCode = 200) :
    ∃ r : WorkspaceResponse,
      (handleRequest req ext).1.body = ResponseBody.success r ∧
      r.workspace.plan = "free" ∧
      r.workspace.status = "active" ∧
      r.workspace.tenantID = r.workspace.teamID := by
  rcases handleRequest_cases req ext with ⟨_, hst⟩ | ⟨si, cr, hu, heq⟩
  · exact absurd hsucc hst
  · rw [hp] at hu
    have hcr : cr = createReq := (Except.ok.inj hu).symm
    subst hcr
    rw [heq] at hsucc ⊢
    unfold handleCreate at hsucc ⊢
    cases ht : ext.teamsCreate with
    | error e =>
      rw [ht] at hsucc
      simp [respondError] at hsucc
    | ok team =>
      rw [ht] at hsucc
      cases hd : ext.createDocument with
      | error e =>
        rw [hd] at hsucc
        simp [respondError] at hsucc
      | ok doc =>
        refine ⟨_, rfl, ?_, rfl, rfl⟩
        simp [hplan]

/-- Request for the C7 witness run. -/
def c7req : AppwriteFunctionRequest :=
  { headers := [("x-appwrite-trigger", "http"), ("x-appwrite-session", "sess1")]
    body := "\x7b\x7d"
    env := [("APPWRITE_ENDPOINT", "https://cloud.appwrite.io/v1"),
            ("APPWRITE_PROJECT_ID", "proj"), ("APPWRITE_API_KEY", "key")] }

/-- Oracle for the C7 witness run: `name:"Acme Corp", plan:""`, all
calls succeed. -/
def c7ext : ExtOracle :=
  { accountGet := Except.ok { id := "user1", email := "u@example.com", name := "User One" }
    unmarshalBody := Except.ok { name := "Acme Corp", description := "", plan := "" }
    teamsCreate := Except.ok { id := "team1" }
    createDocument := Except.ok { id := "doc1" }
    teamsDelete := Except.ok ()
    now := "2026-01-01T00:00:00Z" }

/-- Witness for C7 at the spec's example request. -/
theorem C7_empty_plan_defaults_free_witness :
    ∃ r : WorkspaceResponse,
      (handleRequest c7req c7ext).1.body = ResponseBody.success r ∧
      r.workspace.plan = "free" ∧
      r.workspace.status = "active" ∧
      r.workspace.tenantID = r.workspace.teamID :=
  C7_empty_plan_defaults_free c7req c7ext
    { name := "Acme Corp", description := "", plan := "" }
    rfl rfl (by decide)

/-! ## Claim C8 -/

/-- C8: when the run reaches the welcome-notification step (the team was
created and the document written), the response is the 200 success
response, and it is unchanged under any modification of the invocation
env — in particular absent webhook configuration or a failing webhook
step never change the returned result. -/
theorem C8_webhook_outcome_never_surfaces
    (req : AppwriteFunctionRequest) (ext : ExtOracle) (team : Team) (doc : Document)
    (hteam : ext.teamsCreate = Except.ok team)
    (hdoc : ext.createDocument = Except.ok doc)
    (hrun : ∃ ev ∈ (handleRequest req ext).2, isTeamsCreate ev = true) :
    (handleRequest req ext).1.statusCode = 200 ∧
    (∃ r, (handleRequest req ext).1.body = ResponseBody.success r ∧ r.success = true) ∧
    ∀ env2, (handleRequest { req with env := env2 } ext).1 = (handleRequest req ext).1 := by
  rcases handleRequest_cases req ext with ⟨htr, _⟩ | ⟨si, cr, hu, heq⟩
  · rw [htr] at hrun
    simp at hrun
  · refine ⟨?_, ?_, fun env2 => response_env_independent req ext env2⟩
    · rw [heq]
      unfold handleCreate
      rw [hteam, hdoc]
    · rw [heq]
      unfold handleCreate
      rw [hteam, hdoc]
      exact ⟨_, rfl, rfl⟩

/-- Request for the C8 witness run: no webhook configuration at all. -/
def c8req : AppwriteFunctionRequest :=
  { headers := [("x-appwrite-trigger", "http"), ("x-appwrite-session", "sess1")]
    body := "\x7b\x7d"
    env := [("APPWRITE_ENDPOINT", "https://cloud.appwrite.io/v1"),
            ("APPWRITE_PROJECT_ID", "proj"), ("APPWRITE_API_KEY", "key")] }

/-- Oracle for the C8 witness run. -/
def c8ext : ExtOracle :=
  { accountGet := Except.ok { id := "user1", email := "u@example.com", name := "User One" }
    unmarshalBody := Except.ok { name := "Acme Corp", description := "", plan := "pro" }
    teamsCreate := Except.ok { id := "team1" }
    createDocument := Except.ok { id := "doc1" }
    teamsDelete := Except.ok ()
    now := "2026-01-01T00:00:00Z" }

/-- Witness for C8 at a concrete run without webhook configuration. -/
theorem C8_webhook_outcome_never_surfaces_witness :
    (handleRequest c8req c8ext).1.statusCode = 200 ∧
    (∃ r, (handleRequest c8req c8ext).1.body = ResponseBody.success r ∧ r.success = true) ∧
    ∀ env2, (handleRequest { c8req with env := env2 } c8ext).1 = (handleRequest c8req c8ext).1 :=
  C8_webhook_outcome_never_surfaces c8req c8ext (Team.mk "team1") (Document.mk "doc1")
    rfl rfl (by decide)

/-! ## Claim C9 -/

/-- Request for the C9 run: full env including webhook URL and key, as
the claim requires. -/
def c9req : AppwriteFunctionRequest :=
  { headers := [("x-appwrite-trigger", "http"), ("x-appwrite-session", "sess1")]
    body := "\x7b\x7d"
    env := [("APPWRITE_ENDPOINT", "https://cloud.appwrite.io/v1"),
            ("APPWRITE_PROJECT_ID", "proj"), ("APPWRITE_API_KEY", "key"),
            ("WEBHOOK_URL", "https://hooks.example.com/welcome"),
            ("WEBHOOK_API_KEY", "whkey")] }

/-- Oracle for the C9 run: every platform call succeeds. -/
def c9ext : ExtOracle :=
  { accountGet := Except.ok { id := "user1", email := "u@example.com", name := "User One" }
    unmarshalBody := Except.ok { name := "Acme Corp", description := "", plan := "" }
    teamsCreate := Except.ok { id := "team1" }
    createDocument := Except.ok { id := "doc1" }
    teamsDelete := Except.ok ()
    now := "2026-01-01T00:00:00Z" }

/-- C9 fails on the code: in a successful provisioning with both
webhook URL and key configured, the handler performs no outbound POST at
all — its `sendWelcomeWebhook` (main.go:222-245) validates the
configuration and then only logs.  The authenticated POST the claim
describes (method POST, header `Authorization: Bearer <key>`, the
`workspace.created` payload with workspaceName, userEmail, teamId and a
timestamp) is built only by the shared service method
`services.SendWelcomeWebhook` (webhook.go:35-82), which the handler
never invokes. -/
theorem C9_no_outbound_post_sent :
    mapGet c9req.env "WEBHOOK_URL" = "https://hooks.example.com/welcome" ∧
    mapGet c9req.env "WEBHOOK_API_KEY" = "whkey" ∧
    (handleRequest c9req c9ext).1.statusCode = 200 ∧
    (handleRequest c9req c9ext).2.filter isHttpPost = [] ∧
    (handleRequest c9req c9ext).2.filter (fun ev => !isCreationCall ev) =
      [Event.webhookLogCall "https://hooks.example.com/welcome" "Acme Corp" "team1"] ∧
    services.SendWelcomeWebhook c9req.env "Acme Corp" "u@example.com" "team1"
        "2026-01-01T00:00:00Z" =
      Except.ok
        { method := "POST"
          url := "https://hooks.example.com/welcome"
          headers := [("Content-Type", "application/json"),
                      ("Authorization", "Bearer whkey"),
                      ("X-Webhook-Source", "appwrite-function")]
          body := { event := "workspace.created"
                    timestamp := "2026-01-01T00:00:00Z"
                    data := [("workspaceName", "Acme Corp"),
                             ("userEmail", "u@example.com"),
                             ("teamId", "team1")] } } :=
  ⟨rfl, rfl, by decide, by decide, by decide, rfl⟩

/-! ## Claim C10 -/

/-- C10: when the payload on process input fails to decode, the entry
point produces no output at all — `goMain` yields `none` — even though
the 500 `INVALID_REQUEST` response is constructed (and then discarded)
by `respondError`. -/
theorem C10_invalid_json_silent (ext : ExtOracle) :
    goMain none ext = none ∧
    respondError 500 "INVALID_REQUEST" "Failed to parse request" "" =
      { statusCode := 500
        body := ResponseBody.error
          { success := false
            error := { code := "INVALID_REQUEST"
                       message := "Failed to parse request"
                       field := "" } } } :=
  ⟨rfl, rfl⟩

end AppwriteTut
